import Mathlib

/-!
Verification of the request-orchestration pipeline of the TestChatBot
repository (`llm_client.py`, `app.py`, `config.py`).

The embedding is a direct translation of the Python source:
* the remote HTTP endpoint is abstracted by an environment
  `env : Nat → AttemptOutcome` giving the outcome of the i-th
  `http_client.post` call of one `generate_response` invocation;
* `asyncio.sleep` calls are recorded as a list of waited durations
  (in the spec's "time units");
* a Python `raise LLMAPIError(...)` is a `GenResult.err` carrying a
  constructor per distinct raise site, while a plain `return` of a string
  is `GenResult.ok` — note that the empty-query and missing-token paths of
  `generate_response` *return* fallback strings, they do not raise.
-/

namespace TestChatBot

/-- One chat-completion message, an item of the list built by
`InvestmentLLMClient._build_messages`. -/
structure Message where
  role : String
  content : String
deriving DecidableEq, Repr

/-- The fixed system persona block of `_build_messages` (llm_client.py). -/
def system_content : String :=
  "Ты - профессиональный консультант по инвестиционным продуктам.\n\nТвоя задача:\n- Отвечать на вопросы клиентов об инвестиционных паях, ЗПИФ и инвестиционных услугах\n- Использовать только предоставленную информацию из базы знаний\n- Давать точные и профессиональные ответы\n- Если информации нет в базе знаний - честно сказать об этом\n- Не давать финансовых советов, только информацию о продуктах\n\nСтиль: деловой, но понятный для клиентов."

/-- Python truthiness of the optional `context` argument as tested by
`if context:` in `_build_messages`: `None` and the empty string are falsy,
every non-empty string is truthy. -/
def contextTruthy : Option String → Bool
  | none => false
  | some c => c != ""

/-- `_build_messages(user_query, context)` from llm_client.py: a list holding
one system message with the fixed persona block followed by one user message
whose text depends on the truthiness of `context`. -/
def build_messages (user_query : String) (context : Option String) : List Message :=
  let user_content :=
    if contextTruthy context then
      "Информация из базы знаний:\n\n" ++ context.getD "" ++ "\n\nВопрос клиента: "
        ++ user_query ++ "\n\nОтветь на основе предоставленной информации."
    else
      "Вопрос клиента: " ++ user_query
        ++ "\n\nВ базе знаний не найдено релевантной информации. Ответь что не можешь дать точный ответ и предложи обратиться к специалистам."
  [⟨"system", system_content⟩, ⟨"user", user_content⟩]

/-- Python `str.strip()`: drop leading and trailing whitespace. Written with
structural list recursion so concrete instances evaluate inside the kernel
(`String.trim` is built on `Substring` functions that do not reduce there). -/
def pyStrip (s : String) : String :=
  String.mk (((s.data.dropWhile Char.isWhitespace).reverse.dropWhile
    Char.isWhitespace).reverse)

/-- Python slicing `s[:n]` by code points, as in `response.text[:200]`. -/
def pySlice (s : String) (n : Nat) : String :=
  String.mk (s.data.take n)

/-- An HTTP response as `generate_response` consumes it: the status code, the
raw body text (`response.text`), and the parsed
`choices[i]["message"]["content"]` strings of the JSON body (empty list when
the body has no well-formed choices). -/
structure HttpResponse where
  status_code : Nat
  text : String
  choices : List String
deriving DecidableEq, Repr

/-- Outcome of one `http_client.post` call: a response, a timeout
(`httpx.TimeoutException`) or a transport error (`httpx.RequestError`). -/
inductive AttemptOutcome where
  | response (r : HttpResponse)
  | timeout
  | requestError (msg : String)
deriving DecidableEq, Repr

/-- The distinct `LLMAPIError` raise sites of `generate_response`, kept apart
as a typed taxonomy so theorems can tell them from each other. -/
inductive FailureKind where
  | ApiError (status : Nat) (excerpt : String)
  | TimeoutFailure
  | NetworkFailure (msg : String)
  | AttemptsExhausted
  | InternalFault (msg : String)
deriving DecidableEq, Repr

/-- Result of `generate_response`: a returned string, or a raised
`LLMAPIError` classified by its raise site. -/
inductive GenResult where
  | ok (text : String)
  | err (k : FailureKind)
deriving DecidableEq, Repr

/-- Observable effect of one `generate_response` call: its result, the number
of HTTP posts issued, and the `asyncio.sleep` durations in order. -/
structure GenTrace where
  result : GenResult
  calls : Nat
  waits : List Nat
deriving DecidableEq, Repr

/-- Total backoff wait of a call, in time units. -/
def GenTrace.totalWait (t : GenTrace) : Nat := t.waits.sum

/-- The retry loop `for attempt in range(3)` of `generate_response`, reading
the outcome of each HTTP post from `env`. `remaining` counts the loop
iterations still to run; the loop is entered with `attempt = 0`,
`remaining = 3`, and the source's last-attempt test is literally
`attempt == 2`. A 200 response with no parseable first choice raises outside
the loop's `except` clauses and is wrapped by the outer generic handler into
`LLMAPIError("Внутренняя ошибка...")`, here `FailureKind.InternalFault`. -/
def runFrom (env : Nat → AttemptOutcome) (attempt remaining : Nat) : GenTrace :=
  match remaining with
  | 0 => ⟨.err .AttemptsExhausted, 0, []⟩
  | remaining + 1 =>
    match env attempt with
    | .response r =>
      if r.status_code == 200 then
        match r.choices with
        | answer :: _ => ⟨.ok (pyStrip answer), 1, []⟩
        | [] => ⟨.err (.InternalFault "Внутренняя ошибка"), 1, []⟩
      else if r.status_code == 429 then
        let wait_time := 2 ^ attempt
        let rest := runFrom env (attempt + 1) remaining
        ⟨rest.result, 1 + rest.calls, wait_time :: rest.waits⟩
      else
        ⟨.err (.ApiError r.status_code (pySlice r.text 200)), 1, []⟩
    | .timeout =>
      if attempt == 2 then ⟨.err .TimeoutFailure, 1, []⟩
      else
        let rest := runFrom env (attempt + 1) remaining
        ⟨rest.result, 1 + rest.calls, 1 :: rest.waits⟩
    | .requestError m =>
      if attempt == 2 then ⟨.err (.NetworkFailure m), 1, []⟩
      else
        let rest := runFrom env (attempt + 1) remaining
        ⟨rest.result, 1 + rest.calls, 1 :: rest.waits⟩

/-- The slice of `config.py` the client reads: `self.api_token`
(`config.proxy_api_token`); `if not self.api_token:` is the empty string. -/
structure Config where
  api_token : String
deriving DecidableEq, Repr

/-- String returned (not raised) by `generate_response` for an
empty/whitespace-only query. -/
def empty_query_message : String :=
  "Пожалуйста, задайте вопрос об инвестиционных продуктах."

/-- String returned (not raised) by `generate_response` when no API token is
configured. -/
def unconfigured_message : String :=
  "Сервис временно недоступен. Обратитесь к специалистам по телефону."

/-- `generate_response(user_query, context)` from llm_client.py. The guard
`if not user_query or not user_query.strip():` returns a fixed string; the
guard `if not self.api_token:` returns a fixed string with no HTTP activity;
otherwise the prompt is built by `build_messages` (the payload does not
influence the abstracted endpoint `env`) and the retry loop runs with
`attempt = 0`, three iterations. -/
def generate_response (cfg : Config) (env : Nat → AttemptOutcome)
    (user_query : String) (context : Option String) : GenTrace :=
  if user_query == "" || pyStrip user_query == "" then
    ⟨.ok empty_query_message, 0, []⟩
  else if cfg.api_token == "" then
    ⟨.ok unconfigured_message, 0, []⟩
  else
    let _messages := build_messages user_query context
    runFrom env 0 3

/-- Fallback text of `process_chat_request` when generation raised and
retrieval had found context: the retrieved context is appended verbatim. -/
def fallback_with_context (context : String) : String :=
  "Извините, сервис генерации ответов временно недоступен. Вот информация из нашей базы знаний:\n\n"
    ++ context

/-- Fallback text of `process_chat_request` when generation raised and
retrieval found nothing. -/
def fallback_no_context : String :=
  "Извините, сервис временно недоступен. Пожалуйста, обратитесь к специалистам по телефону или через сайт."

/-- The `ChatResponse` pydantic model of app.py. `processing_time` is modeled
as the total backoff wait of the request, the only passage of time the
discrete model accounts for. -/
structure ChatResponse where
  response : String
  context_found : Bool
  processing_time : Nat
deriving DecidableEq, Repr

/-- Observable effect of one `process_chat_request` call: the assembled
response, how many retrieval and LLM HTTP calls were issued, and the context
argument passed to `generate_response` (and through it to
`build_messages`). -/
structure OrchTrace where
  resp : ChatResponse
  retrieval_calls : Nat
  llm_calls : Nat
  llm_context : Option String
deriving DecidableEq, Repr

/-- `process_chat_request` from app.py, after pydantic validation:
`context = knowledge_base.search(query, top_k=3)`;
`context_found = bool(context)`; generation; on `LLMAPIError` the fallback
policy chooses by `context_found`. -/
def process_chat_request (cfg : Config) (env : Nat → AttemptOutcome)
    (search : String → String) (query : String) : OrchTrace :=
  let context := search query
  let context_found := context != ""
  let g := generate_response cfg env query (some context)
  let response_text :=
    match g.result with
    | .ok text => text
    | .err _ =>
      if context_found then fallback_with_context context else fallback_no_context
  { resp := ⟨response_text, context_found, g.totalWait⟩,
    retrieval_calls := 1,
    llm_calls := g.calls,
    llm_context := some context }

/-- Reasons the serving layer rejects a query before the handler runs: the
`ChatRequest` field constraints `min_length=1` / `max_length=1000`, then the
custom validator rejecting input that is blank after `strip()`. -/
inductive InvalidQuery where
  | tooShort
  | tooLong
  | blankAfterStrip
deriving DecidableEq, Repr

/-- Result of pydantic validation of `ChatRequest.query`. -/
inductive QueryCheck where
  | valid (q : String)
  | invalid (e : InvalidQuery)
deriving DecidableEq, Repr

/-- Pydantic validation of `ChatRequest.query` (app.py): field constraints
(`min_length=1`, `max_length=1000`) run first, then the custom validator
raises on blank-after-strip input and otherwise returns `v.strip()`. -/
def validate_query (v : String) : QueryCheck :=
  if v.length < 1 then .invalid .tooShort
  else if v.length > 1000 then .invalid .tooLong
  else if pyStrip v == "" then .invalid .blankAfterStrip
  else .valid (pyStrip v)

/-- Result of the `/chat` route: a validation rejection or a chat response. -/
inductive EndpointResult where
  | rejected (e : InvalidQuery)
  | answered (r : ChatResponse)
deriving DecidableEq, Repr

/-- Observable effect of one `/chat` request, network calls included. -/
structure EndpointTrace where
  result : EndpointResult
  retrieval_calls : Nat
  llm_calls : Nat
deriving DecidableEq, Repr

/-- The `/chat` route of app.py: pydantic validation of the raw query, then
`process_chat_request` on the validated (stripped) query. A validation
failure is produced before any retrieval or generation activity. -/
def chat_endpoint (cfg : Config) (env : Nat → AttemptOutcome)
    (search : String → String) (raw_query : String) : EndpointTrace :=
  match validate_query raw_query with
  | .invalid e => ⟨.rejected e, 0, 0⟩
  | .valid q =>
    let tr := process_chat_request cfg env search q
    ⟨.answered tr.resp, tr.retrieval_calls, tr.llm_calls⟩

/-- `health_check` from llm_client.py: one probe call
`generate_response("Тест", "Тестовая информация")`; the Python return value
is `bool(test_response)` — true for a non-empty returned string — and any
raised exception yields `False`. -/
def health_check (cfg : Config) (env : Nat → AttemptOutcome) : Bool :=
  match (generate_response cfg env "Тест" (some "Тестовая информация")).result with
  | .ok s => s != ""
  | .err _ => false

/-- C2 (amended): when no API credential is configured, `generate_response`
returns immediately, with no HTTP call and no backoff wait — but the value it
returns is the fixed fallback string delivered as a successful result, not a
typed failure, so the orchestrator receives it on its success path. -/
theorem unconfigured_fast_fail (cfg : Config) (env : Nat → AttemptOutcome)
    (q : String) (context : Option String)
    (hq : (q == "" || pyStrip q == "") = false)
    (htok : cfg.api_token = "") :
    generate_response cfg env q context = ⟨.ok unconfigured_message, 0, []⟩ := by
  simp [generate_response, hq, htok]

/-- C2 witness: a concrete unconfigured call returning the fallback string
with zero HTTP calls. -/
theorem unconfigured_fast_fail_witness :
    ((("Вопрос" : String) == "" || pyStrip "Вопрос" == "") = false)
    ∧ generate_response ⟨""⟩ (fun _ => AttemptOutcome.timeout) "Вопрос" (some "ctx")
        = ⟨.ok unconfigured_message, 0, []⟩ :=
  ⟨by decide,
    unconfigured_fast_fail ⟨""⟩ (fun _ => AttemptOutcome.timeout) "Вопрос" (some "ctx")
      (by decide) rfl⟩

/-- C2 counterexample: with no token configured, `generate_response` does not
produce a typed failure at all — the result is `GenResult.ok` of the fallback
string (zero HTTP calls), never `GenResult.err`, so the claim that the
`Unconfigured` case surfaces as a typed failure the orchestrator can branch on
is false on the code. -/
theorem unconfigured_not_typed_failure :
    (generate_response ⟨""⟩ (fun _ => AttemptOutcome.timeout) "Тест" none).result
        = GenResult.ok unconfigured_message
    ∧ (generate_response ⟨""⟩ (fun _ => AttemptOutcome.timeout) "Тест" none).calls = 0
    ∧ ∀ k : FailureKind,
        (generate_response ⟨""⟩ (fun _ => AttemptOutcome.timeout) "Тест" none).result
          ≠ GenResult.err k := by
  refine ⟨by decide, by decide, ?_⟩
  intro k hk
  have h : (generate_response ⟨""⟩ (fun _ => AttemptOutcome.timeout) "Тест" none).result
      = GenResult.ok unconfigured_message := by decide
  rw [h] at hk
  exact absurd hk (by simp)

/-- C3: a rate-limit (429) response on every one of the three attempts makes
the call wait 1, 2, 4 time units (in that order), issue exactly three posts —
none after the final backoff — and end in `AttemptsExhausted`, with no
rate-limit-specific failure kind. -/
theorem rate_limited_every_attempt (cfg : Config) (env : Nat → AttemptOutcome)
    (q : String) (context : Option String) (r0 r1 r2 : HttpResponse)
    (hq : (q == "" || pyStrip q == "") = false)
    (htok : (cfg.api_token == "") = false)
    (h0 : env 0 = .response r0) (h0s : r0.status_code = 429)
    (h1 : env 1 = .response r1) (h1s : r1.status_code = 429)
    (h2 : env 2 = .response r2) (h2s : r2.status_code = 429) :
    generate_response cfg env q context = ⟨.err .AttemptsExhausted, 3, [1, 2, 4]⟩ := by
  simp [generate_response, hq, htok, runFrom, h0, h1, h2, h0s, h1s, h2s]

/-- C3 witness: a concrete environment answering 429 on every post. -/
theorem rate_limited_every_attempt_witness :
    ((fun _ : Nat => AttemptOutcome.response ⟨429, "", []⟩) 0
        = AttemptOutcome.response ⟨429, "", []⟩)
    ∧ generate_response ⟨"tok"⟩ (fun _ => AttemptOutcome.response ⟨429, "", []⟩)
        "Вопрос" none
        = ⟨.err .AttemptsExhausted, 3, [1, 2, 4]⟩ :=
  ⟨rfl,
    rate_limited_every_attempt ⟨"tok"⟩ (fun _ => AttemptOutcome.response ⟨429, "", []⟩)
      "Вопрос" none ⟨429, "", []⟩ ⟨429, "", []⟩ ⟨429, "", []⟩
      (by decide) (by decide) rfl rfl rfl rfl rfl rfl⟩

/-- C4: rate-limit responses on attempts 0 and 1 followed by a successful
response on attempt 2 yield `Ok` with the successful attempt's (trimmed) text
and a total backoff wait of exactly 1 + 2 = 3 time units. -/
theorem rate_limited_then_success (cfg : Config) (env : Nat → AttemptOutcome)
    (q : String) (context : Option String) (r0 r1 r2 : HttpResponse)
    (answer : String) (rest : List String)
    (hq : (q == "" || pyStrip q == "") = false)
    (htok : (cfg.api_token == "") = false)
    (h0 : env 0 = .response r0) (h0s : r0.status_code = 429)
    (h1 : env 1 = .response r1) (h1s : r1.status_code = 429)
    (h2 : env 2 = .response r2) (h2s : r2.status_code = 200)
    (h2c : r2.choices = answer :: rest) :
    generate_response cfg env q context = ⟨.ok (pyStrip answer), 3, [1, 2]⟩
    ∧ (generate_response cfg env q context).totalWait = 3 := by
  have h : generate_response cfg env q context = ⟨.ok (pyStrip answer), 3, [1, 2]⟩ := by
    simp [generate_response, hq, htok, runFrom, h0, h1, h2, h0s, h1s, h2s, h2c]
  exact ⟨h, by rw [h]; rfl⟩

/-- C4 witness: 429, 429, then a 200 response whose first choice is
"  ответ  "; the result is its trim and the total wait is 3. -/
theorem rate_limited_then_success_witness :
    (pyStrip "  ответ  " = "ответ")
    ∧ generate_response ⟨"tok"⟩
        (fun i => if i < 2 then AttemptOutcome.response ⟨429, "", []⟩
          else AttemptOutcome.response ⟨200, "", ["  ответ  "]⟩)
        "Вопрос" none
        = ⟨.ok (pyStrip "  ответ  "), 3, [1, 2]⟩
    ∧ (generate_response ⟨"tok"⟩
        (fun i => if i < 2 then AttemptOutcome.response ⟨429, "", []⟩
          else AttemptOutcome.response ⟨200, "", ["  ответ  "]⟩)
        "Вопрос" none).totalWait = 3 :=
  ⟨by decide,
    (rate_limited_then_success ⟨"tok"⟩
      (fun i => if i < 2 then AttemptOutcome.response ⟨429, "", []⟩
        else AttemptOutcome.response ⟨200, "", ["  ответ  "]⟩)
      "Вопрос" none ⟨429, "", []⟩ ⟨429, "", []⟩ ⟨200, "", ["  ответ  "]⟩ "  ответ  " []
      (by decide) (by decide) rfl rfl rfl rfl rfl rfl rfl).1,
    (rate_limited_then_success ⟨"tok"⟩
      (fun i => if i < 2 then AttemptOutcome.response ⟨429, "", []⟩
        else AttemptOutcome.response ⟨200, "", ["  ответ  "]⟩)
      "Вопрос" none ⟨429, "", []⟩ ⟨429, "", []⟩ ⟨200, "", ["  ответ  "]⟩ "  ответ  " []
      (by decide) (by decide) rfl rfl rfl rfl rfl rfl rfl).2⟩

/-- C5: a response whose status is neither 200 nor 429 on the first attempt
surfaces `ApiError` with the status and a 200-character excerpt of the body
immediately: exactly one post, no backoff wait, no further attempts. -/
theorem api_error_no_retry (cfg : Config) (env : Nat → AttemptOutcome)
    (q : String) (context : Option String) (r0 : HttpResponse)
    (hq : (q == "" || pyStrip q == "") = false)
    (htok : (cfg.api_token == "") = false)
    (h0 : env 0 = .response r0)
    (hs200 : (r0.status_code == 200) = false)
    (hs429 : (r0.status_code == 429) = false) :
    generate_response cfg env q context
      = ⟨.err (.ApiError r0.status_code (pySlice r0.text 200)), 1, []⟩ := by
  simp [generate_response, hq, htok, runFrom, h0, hs200, hs429]

/-- C5 witness: a 500 response on the first post. -/
theorem api_error_no_retry_witness :
    ((500 == 200) = false)
    ∧ generate_response ⟨"tok"⟩ (fun _ => AttemptOutcome.response ⟨500, "boom", []⟩)
        "Вопрос" none
        = ⟨.err (.ApiError 500 (pySlice "boom" 200)), 1, []⟩ :=
  ⟨by decide,
    api_error_no_retry ⟨"tok"⟩ (fun _ => AttemptOutcome.response ⟨500, "boom", []⟩)
      "Вопрос" none ⟨500, "boom", []⟩ (by decide) (by decide) rfl (by decide) (by decide)⟩

/-- C1: when generation fails with any `FailureKind`, the orchestrator still
assembles a `ChatResponse` whose `context_found` flag equals whether retrieval
returned non-empty context; a non-empty retrieved context is echoed verbatim
in the fallback text, and an empty one yields the fixed text directing the
user to a specialist (which embeds no retrieved context). -/
theorem generation_failure_fallback (cfg : Config) (env : Nat → AttemptOutcome)
    (search : String → String) (query : String) (k : FailureKind)
    (hk : (generate_response cfg env query (some (search query))).result
      = GenResult.err k) :
    ((process_chat_request cfg env search query).resp.context_found
      = (search query != ""))
    ∧ (search query ≠ "" →
        (process_chat_request cfg env search query).resp.response
          = fallback_with_context (search query)
        ∧ ∃ a b, (process_chat_request cfg env search query).resp.response
            = a ++ search query ++ b)
    ∧ (search query = "" →
        (process_chat_request cfg env search query).resp.response
          = fallback_no_context
        ∧ ∃ a b, (process_chat_request cfg env search query).resp.response
            = a ++ "обратитесь к специалистам" ++ b) := by
  refine ⟨by simp [process_chat_request], ?_, ?_⟩
  · intro h
    have hr : (process_chat_request cfg env search query).resp.response
        = fallback_with_context (search query) := by
      simp [process_chat_request, hk, h]
    refine ⟨hr, ⟨"Извините, сервис генерации ответов временно недоступен. Вот информация из нашей базы знаний:\n\n", "", ?_⟩⟩
    rw [hr, fallback_with_context, String.append_empty]
  · intro h
    have hk2 := hk
    rw [h] at hk2
    have hr : (process_chat_request cfg env search query).resp.response
        = fallback_no_context := by
      simp [process_chat_request, hk2, h]
    refine ⟨hr, ⟨"Извините, сервис временно недоступен. Пожалуйста, ",
      " по телефону или через сайт.", ?_⟩⟩
    rw [hr]
    decide

/-- C1 witness: a 500 response makes generation fail; retrieval found
"данные", and the fallback response echoes it. -/
theorem generation_failure_fallback_witness :
    ((generate_response ⟨"tok"⟩ (fun _ => AttemptOutcome.response ⟨500, "boom", []⟩)
        "Вопрос" (some "данные")).result
      = GenResult.err (.ApiError 500 (pySlice "boom" 200)))
    ∧ (process_chat_request ⟨"tok"⟩ (fun _ => AttemptOutcome.response ⟨500, "boom", []⟩)
        (fun _ => "данные") "Вопрос").resp.response
      = fallback_with_context "данные" :=
  ⟨by decide,
    ((generation_failure_fallback ⟨"tok"⟩
        (fun _ => AttemptOutcome.response ⟨500, "boom", []⟩)
        (fun _ => "данные") "Вопрос" (.ApiError 500 (pySlice "boom" 200))
        (by decide)).2.1 (by decide)).1⟩

/-- C6: a 200 response yields `Ok` of the stripped content of the first
completion choice; on the orchestrator side, a generation success together
with non-empty retrieved context gives `context_found = true` and
`response_text` equal to the model output itself, not the raw context. -/
theorem success_first_choice (cfg : Config) (env : Nat → AttemptOutcome)
    (search : String → String) (q : String) :
    (∀ attempt n r answer rest, env attempt = .response r →
        (r.status_code == 200) = true → r.choices = answer :: rest →
        (runFrom env attempt (n + 1)).result = .ok (pyStrip answer))
    ∧ (∀ t, search q ≠ "" →
        (generate_response cfg env q (some (search q))).result = GenResult.ok t →
        (process_chat_request cfg env search q).resp.context_found = true
        ∧ (process_chat_request cfg env search q).resp.response = t) := by
  constructor
  · intro attempt n r answer rest h hs hc
    simp [runFrom, h, hs, hc]
  · intro t hq hok
    exact ⟨by simp [process_chat_request, hq], by simp [process_chat_request, hok]⟩

/-- C6 witness: a 200 response with first choice "  ответ  " and retrieval
result "данные". -/
theorem success_first_choice_witness :
    ((runFrom (fun _ => AttemptOutcome.response ⟨200, "", ["  ответ  "]⟩) 0 3).result
      = .ok (pyStrip "  ответ  "))
    ∧ (process_chat_request ⟨"tok"⟩
        (fun _ => AttemptOutcome.response ⟨200, "", ["  ответ  "]⟩)
        (fun _ => "данные") "Вопрос").resp.context_found = true
    ∧ (process_chat_request ⟨"tok"⟩
        (fun _ => AttemptOutcome.response ⟨200, "", ["  ответ  "]⟩)
        (fun _ => "данные") "Вопрос").resp.response = pyStrip "  ответ  " :=
  ⟨(success_first_choice ⟨"tok"⟩
      (fun _ => AttemptOutcome.response ⟨200, "", ["  ответ  "]⟩)
      (fun _ => "данные") "Вопрос").1 0 2 ⟨200, "", ["  ответ  "]⟩ "  ответ  " []
      rfl (by decide) rfl,
   ((success_first_choice ⟨"tok"⟩
      (fun _ => AttemptOutcome.response ⟨200, "", ["  ответ  "]⟩)
      (fun _ => "данные") "Вопрос").2 (pyStrip "  ответ  ") (by decide) (by decide)).1,
   ((success_first_choice ⟨"tok"⟩
      (fun _ => AttemptOutcome.response ⟨200, "", ["  ответ  "]⟩)
      (fun _ => "данные") "Вопрос").2 (pyStrip "  ответ  ") (by decide) (by decide)).2⟩

/-- C7 (amended): `health_check` issues the single probe
`generate_response("Тест", "Тестовая информация")` and returns true iff that
call returns a non-empty string; every raised `FailureKind` yields false —
but a missing credential does not: there the probe returns the non-empty
unconfigured fallback string as a success, so `health_check` returns true. -/
theorem health_check_spec (cfg : Config) (env : Nat → AttemptOutcome) :
    (health_check cfg env = true ↔
      ∃ s, (generate_response cfg env "Тест" (some "Тестовая информация")).result
        = GenResult.ok s ∧ s ≠ "")
    ∧ (∀ k, (generate_response cfg env "Тест" (some "Тестовая информация")).result
        = GenResult.err k → health_check cfg env = false)
    ∧ (cfg.api_token = "" → health_check cfg env = true) := by
  have hdef : health_check cfg env
      = match (generate_response cfg env "Тест" (some "Тестовая информация")).result with
        | .ok s => s != ""
        | .err _ => false := rfl
  refine ⟨?_, ?_, ?_⟩
  · rw [hdef]
    cases hg : (generate_response cfg env "Тест" (some "Тестовая информация")).result with
    | ok s => simp
    | err k => simp
  · intro k hk
    rw [hdef, hk]
  · intro h
    have hq : (("Тест" : String) == "" || pyStrip "Тест" == "") = false := by decide
    have hps : pyStrip "Тест" ≠ "" := by decide
    have hgen : generate_response cfg env "Тест" (some "Тестовая информация")
        = ⟨.ok unconfigured_message, 0, []⟩ := by
      simp [generate_response, hq, hps, h]
    rw [hdef, hgen]
    decide

/-- C7 witness: an unconfigured client reports healthy. -/
theorem health_check_spec_witness :
    ((⟨""⟩ : Config).api_token = "")
    ∧ health_check ⟨""⟩ (fun _ => AttemptOutcome.timeout) = true :=
  ⟨rfl, (health_check_spec ⟨""⟩ (fun _ => AttemptOutcome.timeout)).2.2 rfl⟩

/-- C7 counterexample: with no credential configured the probe call returns
the non-empty unconfigured fallback string as a success, so `health_check`
returns true — not false as the claim requires for the `Unconfigured` case. -/
theorem health_check_unconfigured_true :
    health_check ⟨""⟩ (fun _ => AttemptOutcome.requestError "down") = true
    ∧ (generate_response ⟨""⟩ (fun _ => AttemptOutcome.requestError "down") "Тест"
        (some "Тестовая информация")).result = GenResult.ok unconfigured_message :=
  ⟨by decide, by decide⟩

/-- C8: the inputs "" (below `min_length`), "   " (blank after strip) and any
1001-character string (above `max_length`) are rejected by request validation
before the handler runs: the endpoint reports an `InvalidQuery` reason and
issues zero retrieval calls and zero LLM calls. -/
theorem invalid_query_rejected (cfg : Config) (env : Nat → AttemptOutcome)
    (search : String → String) :
    chat_endpoint cfg env search "" = ⟨.rejected .tooShort, 0, 0⟩
    ∧ chat_endpoint cfg env search "   " = ⟨.rejected .blankAfterStrip, 0, 0⟩
    ∧ ∀ s : String, s.length = 1001 →
        chat_endpoint cfg env search s = ⟨.rejected .tooLong, 0, 0⟩ := by
  refine ⟨rfl, rfl, ?_⟩
  intro s hs
  simp [chat_endpoint, validate_query, hs]

/-- C8 witness: a concrete 1001-character string is rejected as too long with
no retrieval or LLM calls. -/
theorem invalid_query_rejected_witness :
    ((String.mk (List.replicate 1001 'a')).length = 1001)
    ∧ chat_endpoint ⟨"tok"⟩ (fun _ => AttemptOutcome.timeout) (fun _ => "данные")
        (String.mk (List.replicate 1001 'a'))
      = ⟨.rejected .tooLong, 0, 0⟩ := by
  have hlen : (String.mk (List.replicate 1001 'a')).length = 1001 := by
    show (List.replicate 1001 'a').length = 1001
    exact List.length_replicate 1001 'a'
  exact ⟨hlen,
    (invalid_query_rejected ⟨"tok"⟩ (fun _ => AttemptOutcome.timeout)
      (fun _ => "данные")).2.2 _ hlen⟩

/-- C9: `build_messages` always returns the two-element sequence system
message then user message; the first is the fixed persona block; with a
present non-empty context the user message embeds the context block followed
by the literal query, and with an absent context it states that nothing
relevant was found and tells the model to admit it cannot answer precisely
and to suggest contacting specialists. Determinism is inherent: the
embedding is a pure function of its two arguments. -/
theorem build_messages_shape (q : String) (ctx : Option String) :
    (build_messages q ctx).map Message.role = ["system", "user"]
    ∧ (build_messages q ctx).head? = some ⟨"system", system_content⟩
    ∧ (∀ c, ctx = some c → c ≠ "" →
        build_messages q ctx = [⟨"system", system_content⟩,
          ⟨"user", "Информация из базы знаний:\n\n" ++ c ++ "\n\nВопрос клиента: " ++ q
            ++ "\n\nОтветь на основе предоставленной информации."⟩])
    ∧ (ctx = none →
        build_messages q ctx = [⟨"system", system_content⟩,
          ⟨"user", "Вопрос клиента: " ++ q
            ++ "\n\nВ базе знаний не найдено релевантной информации. Ответь что не можешь дать точный ответ и предложи обратиться к специалистам."⟩]) := by
  refine ⟨?_, ?_, ?_, ?_⟩
  · simp [build_messages]
  · simp [build_messages]
  · intro c hc hne
    subst hc
    simp [build_messages, contextTruthy, hne]
  · intro h
    subst h
    simp [build_messages, contextTruthy]

/-- C9 witness: the builder applied to the query "Вопрос" with context
"данные" and with no context. -/
theorem build_messages_shape_witness :
    (("данные" : String) ≠ "")
    ∧ build_messages "Вопрос" (some "данные") = [⟨"system", system_content⟩,
        ⟨"user", "Информация из базы знаний:\n\n" ++ "данные" ++ "\n\nВопрос клиента: "
          ++ "Вопрос" ++ "\n\nОтветь на основе предоставленной информации."⟩]
    ∧ build_messages "Вопрос" none = [⟨"system", system_content⟩,
        ⟨"user", "Вопрос клиента: " ++ "Вопрос"
          ++ "\n\nВ базе знаний не найдено релевантной информации. Ответь что не можешь дать точный ответ и предложи обратиться к специалистам."⟩] :=
  ⟨by decide,
   (build_messages_shape "Вопрос" (some "данные")).2.2.1 "данные" rfl (by decide),
   (build_messages_shape "Вопрос" none).2.2.2 rfl⟩

/-- C10: an empty-string retrieval result behaves exactly like an absent
context: the prompt builder returns the same messages for `some ""` as for
`none`; the orchestrator computes `context_found = false` for it; and on
every request the prompt branch taken — the truthiness of the context the
orchestrator passes to `generate_response` and through it to
`build_messages` — coincides with the `context_found` flag. -/
theorem empty_context_like_absent (cfg : Config) (env : Nat → AttemptOutcome)
    (search : String → String) (p q : String) :
    build_messages p (some "") = build_messages p none
    ∧ contextTruthy (process_chat_request cfg env search q).llm_context
        = (process_chat_request cfg env search q).resp.context_found
    ∧ (search q = "" →
        (process_chat_request cfg env search q).resp.context_found = false) := by
  refine ⟨by simp [build_messages, contextTruthy], ?_, ?_⟩
  · simp [process_chat_request, contextTruthy]
  · intro h
    simp [process_chat_request, h]

/-- C10 witness: a retrieval collaborator returning the empty string yields
`context_found = false`. -/
theorem empty_context_like_absent_witness :
    ((fun _ : String => "") "Вопрос" = "")
    ∧ (process_chat_request ⟨"tok"⟩ (fun _ => AttemptOutcome.timeout)
        (fun _ => "") "Вопрос").resp.context_found = false :=
  ⟨rfl, (empty_context_like_absent ⟨"tok"⟩ (fun _ => AttemptOutcome.timeout)
      (fun _ => "") "Вопрос" "Вопрос").2.2 rfl⟩

end TestChatBot
